import Mathlib

/-!
A shallow embedding of `pip_accel/caches/s3.py`, the Amazon S3 cache backend
of pip-accel, together with proofs about its behaviour.

The backend stores distribution archives in an S3 bucket through the boto
client library.  Network interaction (the boto calls) is modelled by an
explicit `World` carrying the remote bucket contents plus fault-injection
slots for each kind of boto call, and every operation threads an `S3St`
state that also records the local filesystem and a chronological trace of
network events.  Exceptions are modelled by returning
`S3St × Except PipError α`: the first component is the state at the moment
the exception escapes (Python exceptions do not roll back side effects).
-/

set_option autoImplicit false

namespace S3Cache

/-- Exceptions of the boto client library as they matter to
`pip_accel.caches.s3`: `BotoClientError`, `BotoServerError` and
`S3ResponseError` (which carries an HTTP status and, in boto's class
hierarchy, is a subclass of `BotoServerError`, hence is caught by
`except (BotoClientError, BotoServerError)`). -/
inductive BotoExc where
  | clientError
  | serverError
  | s3ResponseError (status : Nat)
deriving DecidableEq

/-- Modelled from the spec: the error taxonomy of `pip_accel.exceptions`
(that module is not included under `src/`), consisting of
`CacheBackendDisabledError` and `CacheBackendError`.  In addition,
`boto e` stands for a raw client-library exception propagating uncaught
out of this module, and `valueError` for Python's `ValueError` as raised
by `int()` on a malformed port string on line 193 of the source. -/
inductive PipError where
  | cacheBackendDisabled
  | cacheBackendError
  | boto (e : BotoExc)
  | valueError
deriving DecidableEq

/-- The configuration options read by the S3 cache backend.  The field
`s3_cache_pre` embeds the source's key-prefix option (`s3_cache_prefix`);
an empty `s3_cache_bucket` models the unset (Python-falsy) bucket option. -/
structure Config where
  s3_cache_bucket : String
  s3_cache_readonly : Bool
  s3_cache_create_bucket : Bool
  s3_cache_pre : String
  s3_cache_url : String
  binary_cache : String
deriving DecidableEq

/-- The priority value of `S3CacheBackend` (line 76 of the source). -/
def PRIORITY : Nat := 20

/-- One network call made through boto, as recorded in the trace. -/
inductive NetEvent where
  | connect
  | getBucket (name : String)
  | createBucket (name : String)
  | getKey (key : String)
  | download (key : String) (path : String)
  | upload (key : String)
deriving DecidableEq

/-- The external world: whether boto is importable, a fault-injection slot
for each kind of boto call (a `some` fault makes every such call raise that
exception), and the remote bucket contents (bucket name to association list
of key/payload pairs).  `downloadFault` additionally carries the bytes that
were written to the local file before the download failed. -/
structure World where
  botoAvailable : Bool
  connectFault : Option BotoExc
  getBucketFault : Option BotoExc
  createBucketFault : Option BotoExc
  getKeyFault : Option BotoExc
  downloadFault : Option (BotoExc × List Nat)
  uploadFault : Option BotoExc
  buckets : List (String × List (String × List Nat))
deriving DecidableEq

/-- The result of parsing the configured endpoint URL, i.e. the arguments
the source passes to `S3Connection` (lines 192–197). -/
structure ConnHandle where
  host : String
  port : Nat
  isSecure : Bool
  subdomainCalling : Bool
deriving DecidableEq

/-- The local filesystem: existing directories and files (path/contents). -/
structure FS where
  dirs : List String
  files : List (String × List Nat)
deriving DecidableEq

/-- The full state threaded through the backend's operations: the world,
the two memoization slots of `S3CacheBackend` (`cached_connection` and
`cached_bucket`, present iff the Python attribute has been assigned), the
local filesystem and the trace of network events so far. -/
structure S3St where
  world : World
  cached_connection : Option ConnHandle
  cached_bucket : Option String
  fs : FS
  events : List NetEvent
deriving DecidableEq

/-- Lookup in an association list, newest binding first. -/
def alistLookup {α : Type} : List (String × α) → String → Option α
  | [], _ => none
  | (k, v) :: rest, key => if k = key then some v else alistLookup rest key

/-- Insert into an association list by prepending (shadowing any older
binding, i.e. last-write-wins). -/
def alistInsert {α : Type} (l : List (String × α)) (k : String) (v : α) :
    List (String × α) :=
  (k, v) :: l

/-- If `sep` is a prefix of `s`, return the remainder of `s`. -/
def dropPre? : List Char → List Char → Option (List Char)
  | [], s => some s
  | _ :: _, [] => none
  | c :: cs, d :: ds => if c = d then dropPre? cs ds else none

/-- Split at the first occurrence of `sep`: the text before and after it. -/
def splitFirst (sep : List Char) : List Char → Option (List Char × List Char)
  | [] => (dropPre? sep []).map (fun r => ([], r))
  | c :: cs =>
    match dropPre? sep (c :: cs) with
    | some r => some ([], r)
    | none => (splitFirst sep cs).map (fun p => (c :: p.1, p.2))

/-- The characters before the first `/`. -/
def takeUntilSlash : List Char → List Char
  | [] => []
  | c :: cs => if c = '/' then [] else c :: takeUntilSlash cs

/-- Modelled from the spec: `pip_accel.compat.urlparse` (that module is not
included under `src/`) is Python's standard URL parser; the backend only
uses the scheme and the network location, extracted here. -/
def urlparse (url : String) : String × String :=
  match splitFirst "://".data url.data with
  | none => ("", "")
  | some sr => (String.mk sr.1, String.mk (takeUntilSlash sr.2))

/-- Python's `netloc.partition(':')` restricted to what the source uses:
the text before the first colon and the text after it. -/
def partitionColon (s : String) : String × String :=
  match splitFirst [':'] s.data with
  | none => (s, "")
  | some ab => (String.mk ab.1, String.mk ab.2)

/-- Whether a character is a decimal digit. -/
def isDigitChar (c : Char) : Bool :=
  decide (48 ≤ c.toNat) && decide (c.toNat ≤ 57)

/-- Accumulating decimal parser over characters. -/
def pyIntAux : List Char → Nat → Option Nat
  | [], acc => some acc
  | c :: cs, acc =>
    if isDigitChar c then pyIntAux cs (acc * 10 + (c.toNat - 48)) else none

/-- Python's `int()` on a decimal string, as applied to the port component
on line 193 of the source; `none` models the `ValueError` it raises. -/
def pyInt (s : String) : Option Nat :=
  match s.data with
  | [] => none
  | l => pyIntAux l 0

/-- The endpoint computation of `s3_connection` (lines 189–197 of the
source): scheme, host, port with scheme-dependent default, and the
calling-format choice.  `none` models `int()` raising `ValueError` on a
malformed explicit port string. -/
def parseEndpoint (url : String) : Option ConnHandle :=
  let sn := urlparse url
  let hp := partitionColon sn.2
  let is_secure := sn.1 = "https"
  if hp.2 = "" then
    some ⟨hp.1, if is_secure then 443 else 80, is_secure, hp.1 = "s3.amazonaws.com"⟩
  else
    match pyInt hp.2 with
    | none => none
    | some port => some ⟨hp.1, port, is_secure, hp.1 = "s3.amazonaws.com"⟩

/-- `S3CacheBackend.get_cache_key` (line 214 of the source):
`'/'.join(filter(None, [self.config.s3_cache_prefix, filename]))`. -/
def get_cache_key (cfg : Config) (filename : String) : String :=
  String.intercalate "/" (List.filter (fun s => s != "") [cfg.s3_cache_pre, filename])

/-- `S3CacheBackend.check_prerequisites` (lines 216–240): raise
`CacheBackendDisabledError` when the bucket option is unset or boto cannot
be imported.  Performs no network call and does not touch the state. -/
def check_prerequisites (cfg : Config) (w : World) : Except PipError Unit :=
  if cfg.s3_cache_bucket = "" then .error .cacheBackendDisabled
  else if w.botoAvailable then .ok ()
  else .error .cacheBackendDisabled

/-- The remote side of `connection.get_bucket(name)`: an injected fault
raises it; otherwise a missing bucket raises `S3ResponseError` with HTTP
status 404, and an existing bucket is returned. -/
def remoteGetBucket (w : World) (name : String) : Except BotoExc Unit :=
  match w.getBucketFault with
  | some e => .error e
  | none =>
    match alistLookup w.buckets name with
    | some _ => .ok ()
    | none => .error (.s3ResponseError 404)

/-- The remote side of `connection.create_bucket(name)`: an injected fault
raises it; otherwise the bucket is created empty (the new bucket list is
returned). -/
def remoteCreateBucket (w : World) (name : String) :
    Except BotoExc (List (String × List (String × List Nat))) :=
  match w.createBucketFault with
  | some e => .error e
  | none => .ok (alistInsert w.buckets name [])

/-- The `s3_connection` property (lines 173–204 of the source): memoized in
`cached_connection`; on a cache miss it parses the endpoint URL (a bad
port propagates `ValueError` raw, before any network call), then attempts
the connection, translating any boto client/server error into
`CacheBackendError`.  Only a successful attempt is memoized. -/
def s3_connection (cfg : Config) (st : S3St) : S3St × Except PipError ConnHandle :=
  match st.cached_connection with
  | some c => (st, .ok c)
  | none =>
    match parseEndpoint cfg.s3_cache_url with
    | none => (st, .error .valueError)
    | some h =>
      let st1 : S3St := { st with events := st.events ++ [NetEvent.connect] }
      match st1.world.connectFault with
      | some _ => (st1, .error .cacheBackendError)
      | none => ({ st1 with cached_connection := some h }, .ok h)

/-- The `s3_bucket` property (lines 132–171 of the source): memoized in
`cached_bucket`; on a cache miss it obtains the connection, then fetches
the bucket.  An `S3ResponseError` with status 404 triggers, when the
auto-create option is set, one `create_bucket` call followed by one
re-fetch; every other boto client/server error (including the re-raised
404 when auto-create is off, since `S3ResponseError` is a subclass of
`BotoServerError`) becomes `CacheBackendError`.  Only success is memoized. -/
def s3_bucket (cfg : Config) (st : S3St) : S3St × Except PipError String :=
  match st.cached_bucket with
  | some b => (st, .ok b)
  | none =>
    match s3_connection cfg st with
    | (st1, .error e) => (st1, .error e)
    | (st1, .ok _) =>
      let name := cfg.s3_cache_bucket
      let st2 : S3St := { st1 with events := st1.events ++ [NetEvent.getBucket name] }
      match remoteGetBucket st2.world name with
      | .ok _ => ({ st2 with cached_bucket := some name }, .ok name)
      | .error (.s3ResponseError status) =>
        if status = 404 ∧ cfg.s3_cache_create_bucket = true then
          let st3 : S3St := { st2 with events := st2.events ++ [NetEvent.createBucket name] }
          match remoteCreateBucket st3.world name with
          | .error _ => (st3, .error .cacheBackendError)
          | .ok bs =>
            let st4 : S3St :=
              { st3 with world := { st3.world with buckets := bs },
                         events := st3.events ++ [NetEvent.getBucket name] }
            match remoteGetBucket st4.world name with
            | .ok _ => ({ st4 with cached_bucket := some name }, .ok name)
            | .error _ => (st4, .error .cacheBackendError)
        else (st2, .error .cacheBackendError)
      | .error _ => (st2, .error .cacheBackendError)

/-- Python's `os.path.join(a, b)` for the two-argument posix case used on
line 101 of the source. -/
def osPathJoin (a b : String) : String :=
  if b.data.head? = some '/' then b
  else if a = "" ∨ a.data.getLast? = some '/' then a ++ b
  else a ++ "/" ++ b

/-- Drop leading slashes from a character list. -/
def dropWhileSlash : List Char → List Char
  | [] => []
  | c :: cs => if c = '/' then dropWhileSlash cs else c :: cs

/-- On a reversed character list, drop everything up to (excluding) the
first slash; `none` when there is no slash at all. -/
def dropAfterLastSlash : List Char → Option (List Char)
  | [] => none
  | c :: cs => if c = '/' then some (c :: cs) else dropAfterLastSlash cs

/-- Python's `os.path.dirname` (posix): the text before the final slash,
with trailing slashes stripped unless the result consists of slashes only. -/
def dirname (p : String) : String :=
  match dropAfterLastSlash p.data.reverse with
  | none => ""
  | some revHead =>
    if revHead.all (fun c => c == '/') then String.mk revHead.reverse
    else String.mk (dropWhileSlash revHead).reverse

/-- Modelled from the spec: `pip_accel.utils.makedirs` (that module is not
included under `src/`); per the spec, intermediate directories are created
as needed, and an already existing directory is fine.  The directory path
passed in is recorded as existing (standing for it and its ancestors). -/
def makedirs (fs : FS) (d : String) : FS :=
  if fs.dirs.contains d then fs else { fs with dirs := d :: fs.dirs }

/-- The tail of `S3CacheBackend.get` after the bucket has been resolved
(lines 91–105 of the source): `bucket.get_key(raw_key)` (a boto fault here
propagates raw), and on a hit the download to
`os.path.join(self.config.binary_cache, filename)` after `makedirs` on its
dirname; a download fault propagates raw and leaves the partially written
bytes at that final path. -/
def getAfterBucket (cfg : Config) (filename raw_key bucketName : String)
    (st : S3St) : S3St × Except PipError (Option String) :=
  let stK : S3St := { st with events := st.events ++ [NetEvent.getKey raw_key] }
  match stK.world.getKeyFault with
  | some e => (stK, .error (.boto e))
  | none =>
    match (alistLookup stK.world.buckets bucketName).bind
        (fun objs => alistLookup objs raw_key) with
    | none => (stK, .ok none)
    | some content =>
      let local_file := osPathJoin cfg.binary_cache filename
      let stD : S3St := { stK with
        fs := makedirs stK.fs (dirname local_file),
        events := stK.events ++ [NetEvent.download raw_key local_file] }
      match stD.world.downloadFault with
      | some ft =>
        ({ stD with fs := { stD.fs with
            files := alistInsert stD.fs.files local_file ft.2 } },
         .error (.boto ft.1))
      | none =>
        ({ stD with fs := { stD.fs with
            files := alistInsert stD.fs.files local_file content } },
         .ok (some local_file))

/-- `S3CacheBackend.get` (lines 78–105 of the source): prerequisite check,
key derivation, bucket resolution, then `getAfterBucket`. -/
def get (cfg : Config) (filename : String) (st : S3St) :
    S3St × Except PipError (Option String) :=
  match check_prerequisites cfg st.world with
  | .error e => (st, .error e)
  | .ok _ =>
    match s3_bucket cfg st with
    | (st1, .error e) => (st1, .error e)
    | (st1, .ok bucketName) =>
      getAfterBucket cfg filename (get_cache_key cfg filename) bucketName st1

/-- The tail of `S3CacheBackend.put` after the bucket has been resolved
(lines 124–129 of the source): `Key(bucket); key.key = raw_key;
key.set_contents_from_file(handle)`.  A boto fault during the upload
propagates raw; writing through a handle to a bucket missing from the
remote raises `S3ResponseError` 404 raw (unreachable from consistent
states, since resolution guarantees the bucket exists). -/
def putAfterBucket (raw_key bucketName : String) (content : List Nat)
    (st : S3St) : S3St × Except PipError Unit :=
  let stU : S3St := { st with events := st.events ++ [NetEvent.upload raw_key] }
  match stU.world.uploadFault with
  | some e => (stU, .error (.boto e))
  | none =>
    match alistLookup stU.world.buckets bucketName with
    | none => (stU, .error (.boto (.s3ResponseError 404)))
    | some objs =>
      ({ stU with world := { stU.world with
          buckets := alistInsert stU.world.buckets bucketName
            (alistInsert objs raw_key content) } },
       .ok ())

/-- `S3CacheBackend.put` (lines 107–130 of the source): a pure no-op when
the read-only option is set (before the prerequisite check); otherwise
prerequisite check, key derivation, bucket resolution, then upload. -/
def put (cfg : Config) (filename : String) (content : List Nat) (st : S3St) :
    S3St × Except PipError Unit :=
  if cfg.s3_cache_readonly then (st, .ok ())
  else
    match check_prerequisites cfg st.world with
    | .error e => (st, .error e)
    | .ok _ =>
      match s3_bucket cfg st with
      | (st1, .error e) => (st1, .error e)
      | (st1, .ok bucketName) =>
        putAfterBucket (get_cache_key cfg filename) bucketName content st1

/-- One call into the backend, as issued by the cache manager. -/
inductive Op where
  | get (filename : String)
  | put (filename : String) (content : List Nat)
deriving DecidableEq

/-- Run one operation, keeping the state (the manager catches exceptions
and carries on with the same backend instance). -/
def runOp (cfg : Config) (st : S3St) : Op → S3St
  | .get f => (get cfg f st).1
  | .put f c => (put cfg f c st).1

/-- Run a sequence of operations on one backend instance. -/
def runOps (cfg : Config) (ops : List Op) (st : S3St) : S3St :=
  ops.foldl (runOp cfg) st

/-- Number of `connect` calls in a trace. -/
def connectCount (evs : List NetEvent) : Nat :=
  evs.countP (fun e => match e with | .connect => true | _ => false)

/-- Number of `get_bucket` calls in a trace. -/
def getBucketCount (evs : List NetEvent) : Nat :=
  evs.countP (fun e => match e with | .getBucket _ => true | _ => false)

/-- Number of `create_bucket` calls in a trace. -/
def createCount (evs : List NetEvent) : Nat :=
  evs.countP (fun e => match e with | .createBucket _ => true | _ => false)

/-- No fault is injected into connection setup or bucket resolution. -/
def noSetupFaults (w : World) : Prop :=
  w.connectFault = none ∧ w.getBucketFault = none ∧ w.createBucketFault = none

/-- The configured bucket exists on the remote. -/
def bucketPresent (w : World) (cfg : Config) : Prop :=
  (alistLookup w.buckets cfg.s3_cache_bucket).isSome = true

/-- Whether a boto exception is the distinguished not-found response. -/
def is404 : BotoExc → Bool
  | .s3ResponseError status => status == 404
  | _ => false

/-- Consistency of the memoized bucket handle with the remote: whatever
bucket name is cached does exist remotely (holds in every reachable state,
since only successful resolution is memoized and buckets are never
deleted). -/
def bucketsOk (st : S3St) : Prop :=
  ∀ b, st.cached_bucket = some b → (alistLookup st.world.buckets b).isSome = true

/-! ### Helper lemmas characterizing each layer of the backend -/

theorem intercalate_nil : String.intercalate "/" [] = "" := rfl

theorem intercalate_single (a : String) : String.intercalate "/" [a] = a := rfl

theorem intercalate_pair (a b : String) :
    String.intercalate "/" [a, b] = a ++ "/" ++ b := rfl

theorem cp_ok {cfg : Config} {w : World} (h1 : cfg.s3_cache_bucket ≠ "")
    (h2 : w.botoAvailable = true) : check_prerequisites cfg w = .ok () := by
  simp [check_prerequisites, h1, h2]

theorem cp_fail {cfg : Config} {w : World}
    (h : cfg.s3_cache_bucket = "" ∨ w.botoAvailable = false) :
    check_prerequisites cfg w = .error .cacheBackendDisabled := by
  rcases h with h | h
  · simp [check_prerequisites, h]
  · by_cases hb : cfg.s3_cache_bucket = "" <;> simp [check_prerequisites, hb, h]

theorem conn_cached {cfg : Config} {st : S3St} {c : ConnHandle}
    (h : st.cached_connection = some c) : s3_connection cfg st = (st, .ok c) := by
  simp only [s3_connection, h]

theorem conn_parse_fail {cfg : Config} {st : S3St}
    (h0 : st.cached_connection = none)
    (h : parseEndpoint cfg.s3_cache_url = none) :
    s3_connection cfg st = (st, .error .valueError) := by
  simp only [s3_connection, h0, h]

theorem conn_fault {cfg : Config} {st : S3St} {h : ConnHandle} {e : BotoExc}
    (h0 : st.cached_connection = none)
    (hp : parseEndpoint cfg.s3_cache_url = some h)
    (hf : st.world.connectFault = some e) :
    s3_connection cfg st =
      ({ st with events := st.events ++ [NetEvent.connect] }, .error .cacheBackendError) := by
  simp only [s3_connection, h0, hp, hf]

theorem conn_ok {cfg : Config} {st : S3St} {h : ConnHandle}
    (h0 : st.cached_connection = none)
    (hp : parseEndpoint cfg.s3_cache_url = some h)
    (hf : st.world.connectFault = none) :
    s3_connection cfg st =
      ({ st with events := st.events ++ [NetEvent.connect],
                 cached_connection := some h }, .ok h) := by
  simp only [s3_connection, h0, hp, hf]

theorem sb_cached {cfg : Config} {st : S3St} {b : String}
    (h : st.cached_bucket = some b) : s3_bucket cfg st = (st, .ok b) := by
  simp only [s3_bucket, h]

theorem sb_conn_err {cfg : Config} {st st1 : S3St} {e : PipError}
    (h0 : st.cached_bucket = none)
    (hc : s3_connection cfg st = (st1, .error e)) :
    s3_bucket cfg st = (st1, .error e) := by
  simp only [s3_bucket, h0, hc]

theorem sb_resolved {cfg : Config} {st st1 : S3St} {c : ConnHandle}
    {objs : List (String × List Nat)}
    (h0 : st.cached_bucket = none)
    (hc : s3_connection cfg st = (st1, .ok c))
    (hf : st1.world.getBucketFault = none)
    (hb : alistLookup st1.world.buckets cfg.s3_cache_bucket = some objs) :
    s3_bucket cfg st =
      ({ st1 with events := st1.events ++ [NetEvent.getBucket cfg.s3_cache_bucket],
                  cached_bucket := some cfg.s3_cache_bucket },
       .ok cfg.s3_cache_bucket) := by
  simp only [s3_bucket, h0, hc, remoteGetBucket, hf, hb]

theorem sb_autocreate {cfg : Config} {st st1 : S3St} {c : ConnHandle}
    (h0 : st.cached_bucket = none)
    (hc : s3_connection cfg st = (st1, .ok c))
    (hf : st1.world.getBucketFault = none)
    (hb : alistLookup st1.world.buckets cfg.s3_cache_bucket = none)
    (hcr : cfg.s3_cache_create_bucket = true)
    (hcf : st1.world.createBucketFault = none) :
    s3_bucket cfg st =
      ({ st1 with
          events := st1.events ++ [NetEvent.getBucket cfg.s3_cache_bucket]
            ++ [NetEvent.createBucket cfg.s3_cache_bucket]
            ++ [NetEvent.getBucket cfg.s3_cache_bucket],
          world := { st1.world with
            buckets := alistInsert st1.world.buckets cfg.s3_cache_bucket [] },
          cached_bucket := some cfg.s3_cache_bucket },
       .ok cfg.s3_cache_bucket) := by
  simp only [s3_bucket, h0, hc, remoteGetBucket, hf, hb, hcr, and_true,
    remoteCreateBucket, hcf, alistInsert, alistLookup, if_pos, and_self, ite_true]

theorem sb_nocreate {cfg : Config} {st st1 : S3St} {c : ConnHandle}
    (h0 : st.cached_bucket = none)
    (hc : s3_connection cfg st = (st1, .ok c))
    (hf : st1.world.getBucketFault = none)
    (hb : alistLookup st1.world.buckets cfg.s3_cache_bucket = none)
    (hcr : cfg.s3_cache_create_bucket = false) :
    s3_bucket cfg st =
      ({ st1 with events := st1.events ++ [NetEvent.getBucket cfg.s3_cache_bucket] },
       .error .cacheBackendError) := by
  simp [s3_bucket, h0, hc, remoteGetBucket, hf, hb, hcr]

theorem sb_fault {cfg : Config} {st st1 : S3St} {c : ConnHandle} {e : BotoExc}
    (h0 : st.cached_bucket = none)
    (hc : s3_connection cfg st = (st1, .ok c))
    (hf : st1.world.getBucketFault = some e)
    (h404 : is404 e = false) :
    s3_bucket cfg st =
      ({ st1 with events := st1.events ++ [NetEvent.getBucket cfg.s3_cache_bucket] },
       .error .cacheBackendError) := by
  cases e with
  | clientError => simp only [s3_bucket, h0, hc, remoteGetBucket, hf]
  | serverError => simp only [s3_bucket, h0, hc, remoteGetBucket, hf]
  | s3ResponseError status =>
    have hs : status ≠ 404 := by
      simpa [is404] using h404
    simp only [s3_bucket, h0, hc, remoteGetBucket, hf, hs, false_and, if_false]

theorem gab_keyfault {cfg : Config} {f k b : String} {st : S3St} {e : BotoExc}
    (h : st.world.getKeyFault = some e) :
    getAfterBucket cfg f k b st =
      ({ st with events := st.events ++ [NetEvent.getKey k] }, .error (.boto e)) := by
  simp only [getAfterBucket, h]

theorem gab_miss {cfg : Config} {f k b : String} {st : S3St}
    (h : st.world.getKeyFault = none)
    (hm : (alistLookup st.world.buckets b).bind (fun objs => alistLookup objs k) = none) :
    getAfterBucket cfg f k b st =
      ({ st with events := st.events ++ [NetEvent.getKey k] }, .ok none) := by
  simp only [getAfterBucket, h, hm]

theorem gab_hit {cfg : Config} {f k b : String} {st : S3St} {content : List Nat}
    (h : st.world.getKeyFault = none)
    (hm : (alistLookup st.world.buckets b).bind (fun objs => alistLookup objs k)
      = some content)
    (hd : st.world.downloadFault = none) :
    getAfterBucket cfg f k b st =
      ({ st with
          fs := { dirs := (makedirs st.fs (dirname (osPathJoin cfg.binary_cache f))).dirs,
                  files := alistInsert st.fs.files (osPathJoin cfg.binary_cache f) content },
          events := st.events ++ [NetEvent.getKey k]
            ++ [NetEvent.download k (osPathJoin cfg.binary_cache f)] },
       .ok (some (osPathJoin cfg.binary_cache f))) := by
  simp only [getAfterBucket, h, hm, hd, makedirs]
  split <;> rfl

theorem gab_dlfault {cfg : Config} {f k b : String} {st : S3St}
    {content wr : List Nat} {e : BotoExc}
    (h : st.world.getKeyFault = none)
    (hm : (alistLookup st.world.buckets b).bind (fun objs => alistLookup objs k)
      = some content)
    (hd : st.world.downloadFault = some (e, wr)) :
    getAfterBucket cfg f k b st =
      ({ st with
          fs := { dirs := (makedirs st.fs (dirname (osPathJoin cfg.binary_cache f))).dirs,
                  files := alistInsert st.fs.files (osPathJoin cfg.binary_cache f) wr },
          events := st.events ++ [NetEvent.getKey k]
            ++ [NetEvent.download k (osPathJoin cfg.binary_cache f)] },
       .error (.boto e)) := by
  simp only [getAfterBucket, h, hm, hd, makedirs]
  split <;> rfl

theorem pab_fault {k b : String} {content : List Nat} {st : S3St} {e : BotoExc}
    (h : st.world.uploadFault = some e) :
    putAfterBucket k b content st =
      ({ st with events := st.events ++ [NetEvent.upload k] }, .error (.boto e)) := by
  simp only [putAfterBucket, h]

theorem pab_ok {k b : String} {content : List Nat} {st : S3St}
    {objs : List (String × List Nat)}
    (h : st.world.uploadFault = none)
    (hb : alistLookup st.world.buckets b = some objs) :
    putAfterBucket k b content st =
      ({ st with
          world := { st.world with
            buckets := alistInsert st.world.buckets b (alistInsert objs k content) },
          events := st.events ++ [NetEvent.upload k] },
       .ok ()) := by
  simp only [putAfterBucket, h, hb]

theorem get_cp_err {cfg : Config} {f : String} {st : S3St} {e : PipError}
    (h : check_prerequisites cfg st.world = .error e) :
    get cfg f st = (st, .error e) := by
  simp only [get, h]

theorem get_sb_err {cfg : Config} {f : String} {st st1 : S3St} {e : PipError}
    (h : check_prerequisites cfg st.world = .ok ())
    (hs : s3_bucket cfg st = (st1, .error e)) :
    get cfg f st = (st1, .error e) := by
  simp only [get, h, hs]

theorem get_sb_ok {cfg : Config} {f : String} {st st1 : S3St} {b : String}
    (h : check_prerequisites cfg st.world = .ok ())
    (hs : s3_bucket cfg st = (st1, .ok b)) :
    get cfg f st = getAfterBucket cfg f (get_cache_key cfg f) b st1 := by
  simp only [get, h, hs]

theorem put_readonly {cfg : Config} {f : String} {c : List Nat} {st : S3St}
    (h : cfg.s3_cache_readonly = true) :
    put cfg f c st = (st, .ok ()) := by
  simp only [put, h, if_true]

theorem put_cp_err {cfg : Config} {f : String} {c : List Nat} {st : S3St} {e : PipError}
    (hr : cfg.s3_cache_readonly = false)
    (h : check_prerequisites cfg st.world = .error e) :
    put cfg f c st = (st, .error e) := by
  simp [put, hr, h]

theorem put_sb_err {cfg : Config} {f : String} {c : List Nat} {st st1 : S3St} {e : PipError}
    (hr : cfg.s3_cache_readonly = false)
    (h : check_prerequisites cfg st.world = .ok ())
    (hs : s3_bucket cfg st = (st1, .error e)) :
    put cfg f c st = (st1, .error e) := by
  simp [put, hr, h, hs]

theorem put_sb_ok {cfg : Config} {f : String} {c : List Nat} {st st1 : S3St} {b : String}
    (hr : cfg.s3_cache_readonly = false)
    (h : check_prerequisites cfg st.world = .ok ())
    (hs : s3_bucket cfg st = (st1, .ok b)) :
    put cfg f c st = putAfterBucket (get_cache_key cfg f) b c st1 := by
  simp [put, hr, h, hs]

/-! ### Small auxiliary lemmas -/

theorem alistLookup_insert {α : Type} (l : List (String × α)) (k : String) (v : α) :
    alistLookup (alistInsert l k v) k = some v := by
  simp [alistInsert, alistLookup]

theorem alistLookup_insert_isSome {α : Type} {l : List (String × α)} {k : String}
    (k' : String) (v : α) (h : (alistLookup l k).isSome = true) :
    (alistLookup (alistInsert l k' v) k).isSome = true := by
  by_cases he : k' = k <;> simp [alistInsert, alistLookup, he, h]

theorem makedirs_contains (fs : FS) (d : String) :
    (makedirs fs d).dirs.contains d = true := by
  unfold makedirs
  split
  · assumption
  · simp

/-! ### Concrete fixtures used by witnesses and counterexamples -/

/-- A fault-free world: boto importable, no injected faults, one bucket
named `mybucket` holding one archive. -/
def w0 : World :=
  { botoAvailable := true, connectFault := none, getBucketFault := none,
    createBucketFault := none, getKeyFault := none, downloadFault := none,
    uploadFault := none,
    buckets := [("mybucket", [("pkg-1.0.tar.gz", [7, 7])])] }

/-- A configuration pointing at that bucket, empty key prefix, default
endpoint, local cache directory `/cache`. -/
def cfg0 : Config :=
  { s3_cache_bucket := "mybucket", s3_cache_readonly := false,
    s3_cache_create_bucket := false, s3_cache_pre := "",
    s3_cache_url := "http://s3.amazonaws.com", binary_cache := "/cache" }

/-- A fresh backend state over `w0`: nothing memoized, empty local
filesystem, empty event trace. -/
def st0 : S3St :=
  { world := w0, cached_connection := none, cached_bucket := none,
    fs := { dirs := [], files := [] }, events := [] }

/-! ### C5: key derivation -/

/-- C5: `get_cache_key` joins the configured prefix and the filename with
`/`, omitting empty components: with an empty prefix the key is the
filename unchanged (no normalization), with an empty filename it is the
prefix, otherwise `prefix/filename`; the spec's two concrete examples
hold.  Purity and totality are immediate: `get_cache_key` is a Lean
function on strings. -/
theorem claim5_cache_key :
    (∀ cfg f, cfg.s3_cache_pre ≠ "" → f ≠ "" →
      get_cache_key cfg f = cfg.s3_cache_pre ++ "/" ++ f)
    ∧ (∀ cfg f, cfg.s3_cache_pre = "" → get_cache_key cfg f = f)
    ∧ (∀ cfg, get_cache_key cfg "" = cfg.s3_cache_pre)
    ∧ get_cache_key cfg0 "pkg-1.0.tar.gz" = "pkg-1.0.tar.gz"
    ∧ get_cache_key { cfg0 with s3_cache_pre := "myprefix" } "pkg-1.0.tar.gz"
        = "myprefix/pkg-1.0.tar.gz" := by
  refine ⟨?_, ?_, ?_, rfl, rfl⟩
  · intro cfg f h1 h2
    have hb1 : (cfg.s3_cache_pre != "") = true := bne_iff_ne.mpr h1
    have hb2 : (f != "") = true := bne_iff_ne.mpr h2
    simp [get_cache_key, List.filter, hb1, hb2, intercalate_pair]
  · intro cfg f h1
    have hb1 : (cfg.s3_cache_pre != "") = false := by simp [h1]
    by_cases h2 : f = ""
    · have hb2 : (f != "") = false := by simp [h2]
      simp [get_cache_key, List.filter, hb1, hb2, intercalate_nil, h2]
    · have hb2 : (f != "") = true := bne_iff_ne.mpr h2
      simp [get_cache_key, List.filter, hb1, hb2, intercalate_single]
  · intro cfg
    by_cases h1 : cfg.s3_cache_pre = ""
    · have hb1 : (cfg.s3_cache_pre != "") = false := by simp [h1]
      simp [get_cache_key, List.filter, hb1, intercalate_nil, h1]
    · have hb1 : (cfg.s3_cache_pre != "") = true := bne_iff_ne.mpr h1
      simp [get_cache_key, List.filter, hb1, intercalate_single]

/-- Witness for C5 at a concrete prefix and filename. -/
theorem claim5_witness :
    get_cache_key { cfg0 with s3_cache_pre := "myprefix" } "pkg-1.0.tar.gz"
      = "myprefix" ++ "/" ++ "pkg-1.0.tar.gz" :=
  claim5_cache_key.1 { cfg0 with s3_cache_pre := "myprefix" } "pkg-1.0.tar.gz"
    (by decide) (by decide)

/-! ### C7: read-only put is a complete no-op -/

/-- C7: when the read-only option is set, `put` returns successfully and
leaves the state entirely unchanged: no network event, no filesystem
change, and in particular the prerequisite check is never run (the
short-circuit on line 119 of the source precedes it). -/
theorem claim7_readonly_noop (cfg : Config) (f : String) (c : List Nat)
    (st : S3St) (h : cfg.s3_cache_readonly = true) :
    put cfg f c st = (st, Except.ok ()) :=
  put_readonly h

/-- Witness for C7: read-only `put` succeeds even with the bucket option
unset and boto missing. -/
theorem claim7_witness :
    put { cfg0 with s3_cache_readonly := true, s3_cache_bucket := "" }
        "pkg-1.0.tar.gz" [1, 2]
        { st0 with world := { w0 with botoAvailable := false } }
      = ({ st0 with world := { w0 with botoAvailable := false } }, Except.ok ()) :=
  claim7_readonly_noop _ _ _ _ rfl

/-! ### C3: unmet prerequisites disable both operations -/

/-- C3 (amended): with the bucket option unset or boto unimportable,
`get` always raises `CacheBackendDisabledError` with the state (hence the
network trace) unchanged, and `put` does so provided the read-only flag is
not set; when the read-only flag is set, `put` is a no-op that raises
nothing (forced by the counterexample `claim3_counterexample`). -/
theorem claim3_disabled_no_network (cfg : Config) (f : String) (c : List Nat)
    (st : S3St)
    (h : cfg.s3_cache_bucket = "" ∨ st.world.botoAvailable = false) :
    get cfg f st = (st, Except.error PipError.cacheBackendDisabled)
    ∧ (cfg.s3_cache_readonly = false →
        put cfg f c st = (st, Except.error PipError.cacheBackendDisabled)) :=
  ⟨get_cp_err (cp_fail h), fun hr => put_cp_err hr (cp_fail h)⟩

/-- Counterexample to C3 as stated: with the bucket option unset ("") but
the read-only flag set, `put` does not raise `BackendDisabled`; it
returns successfully. -/
theorem claim3_counterexample :
    (put { cfg0 with s3_cache_bucket := "", s3_cache_readonly := true }
        "pkg-1.0.tar.gz" [1] st0).2 = Except.ok ()
    ∧ (put { cfg0 with s3_cache_bucket := "", s3_cache_readonly := true }
        "pkg-1.0.tar.gz" [1] st0).2 ≠ Except.error PipError.cacheBackendDisabled := by
  refine ⟨rfl, ?_⟩
  intro h
  exact nomatch h

/-- Witness for C3 (amended) at a concrete unset bucket. -/
theorem claim3_witness :
    get { cfg0 with s3_cache_bucket := "" } "pkg-1.0.tar.gz" st0
      = (st0, Except.error PipError.cacheBackendDisabled)
    ∧ put { cfg0 with s3_cache_bucket := "" } "pkg-1.0.tar.gz" [1] st0
      = (st0, Except.error PipError.cacheBackendDisabled) := by
  have h := claim3_disabled_no_network { cfg0 with s3_cache_bucket := "" }
    "pkg-1.0.tar.gz" [1] st0 (Or.inl rfl)
  exact ⟨h.1, h.2 rfl⟩

/-! ### C2, C10: clean cache miss -/

/-- C2: with the prerequisites satisfied (bucket configured, boto
importable), on a fresh backend instance with a working connection and an
existing bucket, `get` of a filename whose derived key is absent from the
bucket returns `none` and raises nothing. -/
theorem claim2_miss_returns_none (cfg : Config) (f : String) (st : S3St)
    (h : ConnHandle) (objs : List (String × List Nat))
    (hb : cfg.s3_cache_bucket ≠ "") (hav : st.world.botoAvailable = true)
    (hc0 : st.cached_connection = none) (hb0 : st.cached_bucket = none)
    (hp : parseEndpoint cfg.s3_cache_url = some h)
    (hcf : st.world.connectFault = none)
    (hgf : st.world.getBucketFault = none)
    (hkf : st.world.getKeyFault = none)
    (hobjs : alistLookup st.world.buckets cfg.s3_cache_bucket = some objs)
    (hmiss : alistLookup objs (get_cache_key cfg f) = none) :
    (get cfg f st).2 = Except.ok none := by
  simp only [get, cp_ok hb hav, s3_bucket, hb0, s3_connection, hc0, hp, hcf,
    remoteGetBucket, hgf, hobjs, getAfterBucket, hkf, Option.bind, hmiss]

/-- Witness for C2: a concrete miss on the fixture world. -/
theorem claim2_witness : (get cfg0 "other.tar.gz" st0).2 = Except.ok none :=
  claim2_miss_returns_none cfg0 "other.tar.gz" st0
    ⟨"s3.amazonaws.com", 80, false, true⟩ [("pkg-1.0.tar.gz", [7, 7])]
    (by decide) rfl rfl rfl (by decide) rfl rfl rfl (by decide) (by decide)

/-- C10: on the same clean-miss scenario as C2, `get` leaves the local
filesystem untouched: directory creation and the file write happen only on
the hit branch. -/
theorem claim10_miss_no_fs_change (cfg : Config) (f : String) (st : S3St)
    (h : ConnHandle) (objs : List (String × List Nat))
    (hb : cfg.s3_cache_bucket ≠ "") (hav : st.world.botoAvailable = true)
    (hc0 : st.cached_connection = none) (hb0 : st.cached_bucket = none)
    (hp : parseEndpoint cfg.s3_cache_url = some h)
    (hcf : st.world.connectFault = none)
    (hgf : st.world.getBucketFault = none)
    (hkf : st.world.getKeyFault = none)
    (hobjs : alistLookup st.world.buckets cfg.s3_cache_bucket = some objs)
    (hmiss : alistLookup objs (get_cache_key cfg f) = none) :
    (get cfg f st).1.fs = st.fs := by
  simp only [get, cp_ok hb hav, s3_bucket, hb0, s3_connection, hc0, hp, hcf,
    remoteGetBucket, hgf, hobjs, getAfterBucket, hkf, Option.bind, hmiss]

/-- Witness for C10: the concrete miss leaves the empty filesystem empty. -/
theorem claim10_witness : (get cfg0 "other.tar.gz" st0).1.fs = st0.fs :=
  claim10_miss_no_fs_change cfg0 "other.tar.gz" st0
    ⟨"s3.amazonaws.com", 80, false, true⟩ [("pkg-1.0.tar.gz", [7, 7])]
    (by decide) rfl rfl rfl (by decide) rfl rfl rfl (by decide) (by decide)

/-! ### C8: cache hit downloads to the local cache path -/

/-- C8: with the prerequisites satisfied, on a fresh backend instance with
a working connection, an existing bucket and the derived key present with
payload `content`, `get` returns exactly
`os.path.join(binary_cache, filename)`, that file now holds `content`,
and the parent directory was created. -/
theorem claim8_hit_downloads (cfg : Config) (f : String) (st : S3St)
    (h : ConnHandle) (objs : List (String × List Nat)) (content : List Nat)
    (hb : cfg.s3_cache_bucket ≠ "") (hav : st.world.botoAvailable = true)
    (hc0 : st.cached_connection = none) (hb0 : st.cached_bucket = none)
    (hp : parseEndpoint cfg.s3_cache_url = some h)
    (hcf : st.world.connectFault = none)
    (hgf : st.world.getBucketFault = none)
    (hkf : st.world.getKeyFault = none)
    (hdf : st.world.downloadFault = none)
    (hobjs : alistLookup st.world.buckets cfg.s3_cache_bucket = some objs)
    (hhit : alistLookup objs (get_cache_key cfg f) = some content) :
    (get cfg f st).2 = Except.ok (some (osPathJoin cfg.binary_cache f))
    ∧ alistLookup (get cfg f st).1.fs.files (osPathJoin cfg.binary_cache f)
        = some content
    ∧ (get cfg f st).1.fs.dirs.contains (dirname (osPathJoin cfg.binary_cache f))
        = true := by
  simp only [get, cp_ok hb hav, s3_bucket, hb0, s3_connection, hc0, hp, hcf,
    remoteGetBucket, hgf, hobjs, getAfterBucket, hkf, Option.bind, hhit, hdf,
    alistLookup_insert, makedirs_contains, and_self]

/-- Witness for C8: the concrete hit on the fixture world. -/
theorem claim8_witness :
    (get cfg0 "pkg-1.0.tar.gz" st0).2
      = Except.ok (some (osPathJoin cfg0.binary_cache "pkg-1.0.tar.gz"))
    ∧ alistLookup (get cfg0 "pkg-1.0.tar.gz" st0).1.fs.files
        (osPathJoin cfg0.binary_cache "pkg-1.0.tar.gz") = some [7, 7]
    ∧ (get cfg0 "pkg-1.0.tar.gz" st0).1.fs.dirs.contains
        (dirname (osPathJoin cfg0.binary_cache "pkg-1.0.tar.gz")) = true :=
  claim8_hit_downloads cfg0 "pkg-1.0.tar.gz" st0
    ⟨"s3.amazonaws.com", 80, false, true⟩ [("pkg-1.0.tar.gz", [7, 7])] [7, 7]
    (by decide) rfl rfl rfl (by decide) rfl rfl rfl rfl (by decide) (by decide)

/-! ### C9: failing download -/

/-- C9 (amended): when the download of a present key fails partway, the
failure propagates as the raw boto exception (not as `BackendError`), and
the partially written bytes are left at the final cache path
`binary_cache/filename` itself — there is no temporary file, atomic
rename, or delete-on-failure in the code (forced by
`claim9_counterexample`). -/
theorem claim9_failed_download (cfg : Config) (f : String) (st : S3St)
    (h : ConnHandle) (objs : List (String × List Nat)) (content wr : List Nat)
    (e : BotoExc)
    (hb : cfg.s3_cache_bucket ≠ "") (hav : st.world.botoAvailable = true)
    (hc0 : st.cached_connection = none) (hb0 : st.cached_bucket = none)
    (hp : parseEndpoint cfg.s3_cache_url = some h)
    (hcf : st.world.connectFault = none)
    (hgf : st.world.getBucketFault = none)
    (hkf : st.world.getKeyFault = none)
    (hdf : st.world.downloadFault = some (e, wr))
    (hobjs : alistLookup st.world.buckets cfg.s3_cache_bucket = some objs)
    (hhit : alistLookup objs (get_cache_key cfg f) = some content) :
    (get cfg f st).2 = Except.error (PipError.boto e)
    ∧ alistLookup (get cfg f st).1.fs.files (osPathJoin cfg.binary_cache f)
        = some wr := by
  simp only [get, cp_ok hb hav, s3_bucket, hb0, s3_connection, hc0, hp, hcf,
    remoteGetBucket, hgf, hobjs, getAfterBucket, hkf, Option.bind, hhit, hdf,
    alistLookup_insert, and_self]

/-- Counterexample to C9 as stated: a download failing partway through
does not surface as `BackendError` (the raw boto exception escapes), and
the half-written file is left at the final cache path, where it would be
treated as a valid cache hit. -/
theorem claim9_counterexample :
    (get cfg0 "pkg-1.0.tar.gz"
        { st0 with world := { w0 with downloadFault := some (.serverError, [7]) } }).2
      ≠ Except.error PipError.cacheBackendError
    ∧ alistLookup (get cfg0 "pkg-1.0.tar.gz"
        { st0 with world := { w0 with downloadFault := some (.serverError, [7]) } }).1.fs.files
        "/cache/pkg-1.0.tar.gz" = some [7] := by
  refine ⟨?_, rfl⟩
  intro h
  exact nomatch h

/-- Witness for C9 (amended) at the concrete failing download. -/
theorem claim9_witness :
    (get cfg0 "pkg-1.0.tar.gz"
        { st0 with world := { w0 with downloadFault := some (.serverError, [7]) } }).2
      = Except.error (PipError.boto BotoExc.serverError)
    ∧ alistLookup (get cfg0 "pkg-1.0.tar.gz"
        { st0 with world := { w0 with downloadFault := some (.serverError, [7]) } }).1.fs.files
        (osPathJoin cfg0.binary_cache "pkg-1.0.tar.gz") = some [7] :=
  claim9_failed_download cfg0 "pkg-1.0.tar.gz" _
    ⟨"s3.amazonaws.com", 80, false, true⟩ [("pkg-1.0.tar.gz", [7, 7])] [7, 7] [7]
    BotoExc.serverError
    (by decide) rfl rfl rfl (by decide) rfl rfl rfl rfl (by decide) (by decide)

/-! ### C6: auto-creation of a missing bucket -/

/-- C6: on first container resolution with a working connection, (a) when
the remote reports not-found (status 404, here arising from the bucket
being absent) and auto-create is enabled, exactly one `create_bucket` call
is made followed by exactly one re-fetch, and resolution succeeds; (b)
with auto-create disabled the not-found error surfaces as `BackendError`
with no create call; (c) an `S3ResponseError` whose status is not 404
surfaces as `BackendError` with no create call regardless of the flag. -/
theorem claim6_autocreate :
    (∀ cfg st h,
      st.cached_connection = none → st.cached_bucket = none →
      parseEndpoint cfg.s3_cache_url = some h →
      st.world.connectFault = none → st.world.getBucketFault = none →
      st.world.createBucketFault = none →
      alistLookup st.world.buckets cfg.s3_cache_bucket = none →
      cfg.s3_cache_create_bucket = true →
      (s3_bucket cfg st).2 = Except.ok cfg.s3_cache_bucket
      ∧ (s3_bucket cfg st).1.events = st.events ++ [NetEvent.connect]
          ++ [NetEvent.getBucket cfg.s3_cache_bucket]
          ++ [NetEvent.createBucket cfg.s3_cache_bucket]
          ++ [NetEvent.getBucket cfg.s3_cache_bucket])
    ∧ (∀ cfg st h,
      st.cached_connection = none → st.cached_bucket = none →
      parseEndpoint cfg.s3_cache_url = some h →
      st.world.connectFault = none → st.world.getBucketFault = none →
      alistLookup st.world.buckets cfg.s3_cache_bucket = none →
      cfg.s3_cache_create_bucket = false →
      (s3_bucket cfg st).2 = Except.error PipError.cacheBackendError
      ∧ (s3_bucket cfg st).1.events = st.events ++ [NetEvent.connect]
          ++ [NetEvent.getBucket cfg.s3_cache_bucket])
    ∧ (∀ cfg st h status,
      st.cached_connection = none → st.cached_bucket = none →
      parseEndpoint cfg.s3_cache_url = some h →
      st.world.connectFault = none →
      st.world.getBucketFault = some (BotoExc.s3ResponseError status) →
      status ≠ 404 →
      (s3_bucket cfg st).2 = Except.error PipError.cacheBackendError
      ∧ (s3_bucket cfg st).1.events = st.events ++ [NetEvent.connect]
          ++ [NetEvent.getBucket cfg.s3_cache_bucket]) := by
  refine ⟨?_, ?_, ?_⟩
  · intro cfg st h hc0 hb0 hp hcf hgf hcrf habs hcr
    simp [s3_bucket, hb0, s3_connection, hc0, hp, hcf, remoteGetBucket, hgf,
      habs, hcr, remoteCreateBucket, hcrf, alistInsert, alistLookup]
  · intro cfg st h hc0 hb0 hp hcf hgf habs hcr
    simp [s3_bucket, hb0, s3_connection, hc0, hp, hcf, remoteGetBucket, hgf,
      habs, hcr]
  · intro cfg st h status hc0 hb0 hp hcf hgf hst
    simp [s3_bucket, hb0, s3_connection, hc0, hp, hcf, remoteGetBucket, hgf, hst]

/-- Witness for C6: all three scenarios at concrete inputs. -/
theorem claim6_witness :
    ((s3_bucket { cfg0 with s3_cache_create_bucket := true }
        { st0 with world := { w0 with buckets := [] } }).2 = Except.ok "mybucket"
      ∧ (s3_bucket { cfg0 with s3_cache_create_bucket := true }
        { st0 with world := { w0 with buckets := [] } }).1.events
          = [] ++ [NetEvent.connect] ++ [NetEvent.getBucket "mybucket"]
            ++ [NetEvent.createBucket "mybucket"] ++ [NetEvent.getBucket "mybucket"])
    ∧ ((s3_bucket cfg0 { st0 with world := { w0 with buckets := [] } }).2
        = Except.error PipError.cacheBackendError)
    ∧ ((s3_bucket cfg0
        { st0 with world :=
          { w0 with getBucketFault := some (BotoExc.s3ResponseError 500) } }).2
        = Except.error PipError.cacheBackendError) := by
  refine ⟨?_, ?_, ?_⟩
  · exact claim6_autocreate.1 { cfg0 with s3_cache_create_bucket := true }
      { st0 with world := { w0 with buckets := [] } }
      ⟨"s3.amazonaws.com", 80, false, true⟩
      rfl rfl (by decide) rfl rfl rfl rfl rfl
  · exact (claim6_autocreate.2.1 cfg0
      { st0 with world := { w0 with buckets := [] } }
      ⟨"s3.amazonaws.com", 80, false, true⟩
      rfl rfl (by decide) rfl rfl rfl rfl).1
  · exact (claim6_autocreate.2.2 cfg0
      { st0 with world :=
        { w0 with getBucketFault := some (BotoExc.s3ResponseError 500) } }
      ⟨"s3.amazonaws.com", 80, false, true⟩ 500
      rfl rfl (by decide) rfl rfl (by decide)).1

/-! ### Shape lemmas: which errors each layer can produce -/

theorem conn_world_shape {cfg : Config} {st st1 : S3St}
    {r : Except PipError ConnHandle}
    (h : s3_connection cfg st = (st1, r)) : st1.world = st.world := by
  simp only [s3_connection] at h
  split at h
  · simp only [Prod.mk.injEq] at h
    rw [← h.1]
  · split at h
    · simp only [Prod.mk.injEq] at h
      rw [← h.1]
    · split at h
      · simp only [Prod.mk.injEq] at h
        rw [← h.1]
      · simp only [Prod.mk.injEq] at h
        rw [← h.1]

theorem conn_error_shape {cfg : Config} {st st1 : S3St} {e : PipError}
    (h : s3_connection cfg st = (st1, Except.error e)) :
    e = PipError.valueError ∨ e = PipError.cacheBackendError := by
  simp only [s3_connection] at h
  split at h
  · simp at h
  · split at h
    · simp only [Prod.mk.injEq, Except.error.injEq] at h
      exact Or.inl h.2.symm
    · split at h
      · simp only [Prod.mk.injEq, Except.error.injEq] at h
        exact Or.inr h.2.symm
      · simp at h

theorem sb_error_shape {cfg : Config} {st st1 : S3St} {e : PipError}
    (h : s3_bucket cfg st = (st1, Except.error e)) :
    e = PipError.valueError ∨ e = PipError.cacheBackendError := by
  simp only [s3_bucket] at h
  split at h
  · simp at h
  · split at h
    · rename_i st1' e' heq
      simp only [Prod.mk.injEq, Except.error.injEq] at h
      exact h.2 ▸ conn_error_shape heq
    · split at h
      · simp at h
      · split at h
        · split at h
          · simp only [Prod.mk.injEq, Except.error.injEq] at h
            exact Or.inr h.2.symm
          · split at h
            · simp at h
            · simp only [Prod.mk.injEq, Except.error.injEq] at h
              exact Or.inr h.2.symm
        · simp only [Prod.mk.injEq, Except.error.injEq] at h
          exact Or.inr h.2.symm
      · simp only [Prod.mk.injEq, Except.error.injEq] at h
        exact Or.inr h.2.symm

theorem cp_error_shape {cfg : Config} {w : World} {e : PipError}
    (h : check_prerequisites cfg w = Except.error e) :
    e = PipError.cacheBackendDisabled := by
  simp only [check_prerequisites] at h
  split_ifs at h <;> simp_all

theorem sb_world_faults {cfg : Config} {st st1 : S3St} {r : Except PipError String}
    (h : s3_bucket cfg st = (st1, r)) :
    st1.world.getKeyFault = st.world.getKeyFault
    ∧ st1.world.downloadFault = st.world.downloadFault
    ∧ st1.world.uploadFault = st.world.uploadFault := by
  simp only [s3_bucket] at h
  split at h
  · simp only [Prod.mk.injEq] at h
    obtain ⟨h1, -⟩ := h
    subst h1
    exact ⟨rfl, rfl, rfl⟩
  · split at h
    · rename_i st1' e' heq
      simp only [Prod.mk.injEq] at h
      obtain ⟨h1, -⟩ := h
      subst h1
      simp [conn_world_shape heq]
    · rename_i st1' c heq
      have hw := conn_world_shape heq
      split at h
      · simp only [Prod.mk.injEq] at h
        obtain ⟨h1, -⟩ := h
        subst h1
        simp [hw]
      · split at h
        · split at h
          · simp only [Prod.mk.injEq] at h
            obtain ⟨h1, -⟩ := h
            subst h1
            simp [hw]
          · split at h
            · simp only [Prod.mk.injEq] at h
              obtain ⟨h1, -⟩ := h
              subst h1
              simp [hw]
            · simp only [Prod.mk.injEq] at h
              obtain ⟨h1, -⟩ := h
              subst h1
              simp [hw]
        · simp only [Prod.mk.injEq] at h
          obtain ⟨h1, -⟩ := h
          subst h1
          simp [hw]
      · simp only [Prod.mk.injEq] at h
        obtain ⟨h1, -⟩ := h
        subst h1
        simp [hw]

theorem sb_ok_present {cfg : Config} {st st1 : S3St} {b : String}
    (hok : bucketsOk st) (h : s3_bucket cfg st = (st1, Except.ok b)) :
    (alistLookup st1.world.buckets b).isSome = true := by
  simp only [s3_bucket] at h
  split at h
  · rename_i b0 hcb
    simp only [Prod.mk.injEq, Except.ok.injEq] at h
    obtain ⟨h1, h2⟩ := h
    subst h1
    subst h2
    exact hok b0 hcb
  · split at h
    · simp at h
    · rename_i st1' c heq
      split at h
      · rename_i u hrg
        simp only [Prod.mk.injEq, Except.ok.injEq] at h
        obtain ⟨h1, h2⟩ := h
        subst h1
        subst h2
        simp only [remoteGetBucket] at hrg
        split at hrg
        · simp at hrg
        · split at hrg
          · rename_i objs hlk
            simp [hlk]
          · simp at hrg
      · split at h
        · split at h
          · simp at h
          · rename_i bs2 hcrq
            split at h
            · simp only [Prod.mk.injEq, Except.ok.injEq] at h
              obtain ⟨h1, h2⟩ := h
              subst h1
              subst h2
              simp only [remoteCreateBucket] at hcrq
              split at hcrq
              · simp at hcrq
              · simp only [Except.ok.injEq] at hcrq
                subst hcrq
                simp [alistLookup_insert]
            · simp at h
        · simp at h
      · simp at h

/-! ### C1: the exception-translation boundary -/

/-- C1 (amended): boto exceptions raised during connection establishment
and container resolution surface only as the taxonomy kinds (never as a
raw boto exception): whenever no fault is injected into the transfer
phase (`get_key`/download for `get`, upload for `put`), no raw boto
exception crosses the `get`/`put` boundary.  The transfer phase itself is
not wrapped — a boto exception there propagates raw, as forced by
`claim1_counterexample`. -/
theorem claim1_wrapping_boundary :
    (∀ cfg f st, st.world.getKeyFault = none → st.world.downloadFault = none →
      ∀ e, (get cfg f st).2 ≠ Except.error (PipError.boto e))
    ∧ (∀ cfg f c st, bucketsOk st → st.world.uploadFault = none →
      ∀ e, (put cfg f c st).2 ≠ Except.error (PipError.boto e)) := by
  constructor
  · intro cfg f st hk hd e hcontra
    cases hcp : check_prerequisites cfg st.world with
    | error e' =>
      rw [get_cp_err hcp] at hcontra
      have hshape := cp_error_shape hcp
      subst hshape
      simp at hcontra
    | ok u =>
      cases u
      rcases hsb : s3_bucket cfg st with ⟨st1, r⟩
      cases r with
      | error e' =>
        rw [get_sb_err hcp hsb] at hcontra
        rcases sb_error_shape hsb with h' | h' <;> simp [h'] at hcontra
      | ok b =>
        rw [get_sb_ok hcp hsb] at hcontra
        obtain ⟨hk1, hd1, -⟩ := sb_world_faults hsb
        rw [hk] at hk1
        rw [hd] at hd1
        cases hlk : (alistLookup st1.world.buckets b).bind
            (fun objs => alistLookup objs (get_cache_key cfg f)) with
        | none =>
          rw [gab_miss hk1 hlk] at hcontra
          simp at hcontra
        | some content =>
          rw [gab_hit hk1 hlk hd1] at hcontra
          simp at hcontra
  · intro cfg f c st hok hu e hcontra
    cases hro : cfg.s3_cache_readonly with
    | true =>
      rw [put_readonly hro] at hcontra
      simp at hcontra
    | false =>
      cases hcp : check_prerequisites cfg st.world with
      | error e' =>
        rw [put_cp_err hro hcp] at hcontra
        have hshape := cp_error_shape hcp
        subst hshape
        simp at hcontra
      | ok u =>
        cases u
        rcases hsb : s3_bucket cfg st with ⟨st1, r⟩
        cases r with
        | error e' =>
          rw [put_sb_err hro hcp hsb] at hcontra
          rcases sb_error_shape hsb with h' | h' <;> simp [h'] at hcontra
        | ok b =>
          rw [put_sb_ok hro hcp hsb] at hcontra
          obtain ⟨-, -, hu1⟩ := sb_world_faults hsb
          rw [hu] at hu1
          obtain ⟨objs, hobjs⟩ := Option.isSome_iff_exists.mp (sb_ok_present hok hsb)
          rw [pab_ok hu1 hobjs] at hcontra
          simp at hcontra

/-- Counterexample to C1 as stated: a boto server error raised by
`bucket.get_key` during `get` crosses the `get` boundary raw — it is
neither `BackendDisabled` nor `BackendError`. -/
theorem claim1_counterexample :
    (get cfg0 "pkg-1.0.tar.gz"
        { st0 with world := { w0 with getKeyFault := some BotoExc.serverError } }).2
      = Except.error (PipError.boto BotoExc.serverError)
    ∧ (get cfg0 "pkg-1.0.tar.gz"
        { st0 with world := { w0 with getKeyFault := some BotoExc.serverError } }).2
      ≠ Except.error PipError.cacheBackendDisabled
    ∧ (get cfg0 "pkg-1.0.tar.gz"
        { st0 with world := { w0 with getKeyFault := some BotoExc.serverError } }).2
      ≠ Except.error PipError.cacheBackendError := by
  refine ⟨rfl, ?_, ?_⟩ <;> intro h <;> exact nomatch h

/-- Witness for C1 (amended) at concrete inputs with no transfer faults. -/
theorem claim1_witness :
    (get cfg0 "pkg-1.0.tar.gz" st0).2
      ≠ Except.error (PipError.boto BotoExc.serverError)
    ∧ (put cfg0 "pkg-1.0.tar.gz" [1, 2] st0).2
      ≠ Except.error (PipError.boto BotoExc.serverError) :=
  ⟨claim1_wrapping_boundary.1 cfg0 "pkg-1.0.tar.gz" st0 rfl rfl BotoExc.serverError,
   claim1_wrapping_boundary.2 cfg0 "pkg-1.0.tar.gz" [1, 2] st0
     (fun _b hb => nomatch hb) rfl BotoExc.serverError⟩

/-! ### C4: memoization of the connection and bucket handles -/

theorem connectCount_append (a b : List NetEvent) :
    connectCount (a ++ b) = connectCount a + connectCount b := by
  simp [connectCount, List.countP_append]

theorem getBucketCount_append (a b : List NetEvent) :
    getBucketCount (a ++ b) = getBucketCount a + getBucketCount b := by
  simp [getBucketCount, List.countP_append]

theorem createCount_append (a b : List NetEvent) :
    createCount (a ++ b) = createCount a + createCount b := by
  simp [createCount, List.countP_append]

theorem cc_nil : connectCount [] = 0 := rfl

theorem gc_nil : getBucketCount [] = 0 := rfl

theorem crc_nil : createCount [] = 0 := rfl

theorem cc_connect : connectCount [NetEvent.connect] = 1 := rfl

theorem gc_connect : getBucketCount [NetEvent.connect] = 0 := rfl

theorem crc_connect : createCount [NetEvent.connect] = 0 := rfl

theorem cc_getBucket (n : String) : connectCount [NetEvent.getBucket n] = 0 := rfl

theorem gc_getBucket (n : String) : getBucketCount [NetEvent.getBucket n] = 1 := rfl

theorem crc_getBucket (n : String) : createCount [NetEvent.getBucket n] = 0 := rfl

theorem cc_getKey (k : String) : connectCount [NetEvent.getKey k] = 0 := rfl

theorem gc_getKey (k : String) : getBucketCount [NetEvent.getKey k] = 0 := rfl

theorem crc_getKey (k : String) : createCount [NetEvent.getKey k] = 0 := rfl

theorem cc_download (k p : String) : connectCount [NetEvent.download k p] = 0 := rfl

theorem gc_download (k p : String) : getBucketCount [NetEvent.download k p] = 0 := rfl

theorem crc_download (k p : String) : createCount [NetEvent.download k p] = 0 := rfl

theorem cc_upload (k : String) : connectCount [NetEvent.upload k] = 0 := rfl

theorem gc_upload (k : String) : getBucketCount [NetEvent.upload k] = 0 := rfl

theorem crc_upload (k : String) : createCount [NetEvent.upload k] = 0 := rfl

theorem cc_pair (n : String) :
    connectCount [NetEvent.connect, NetEvent.getBucket n] = 1 := rfl

theorem gc_pair (n : String) :
    getBucketCount [NetEvent.connect, NetEvent.getBucket n] = 1 := rfl

theorem crc_pair (n : String) :
    createCount [NetEvent.connect, NetEvent.getBucket n] = 0 := rfl

theorem crc_pair_kd (k p : String) :
    createCount [NetEvent.getKey k, NetEvent.download k p] = 0 := rfl

/-- The sequential-use invariant of one backend instance: no setup faults,
the configured bucket exists remotely, at most one `connect` call so far
(none unless the connection handle is memoized), at most one `get_bucket`
call so far (none unless the bucket handle is memoized), and no
`create_bucket` call. -/
def Inv (cfg : Config) (st : S3St) : Prop :=
  noSetupFaults st.world ∧ bucketPresent st.world cfg
  ∧ connectCount st.events ≤ (if st.cached_connection.isSome then 1 else 0)
  ∧ getBucketCount st.events ≤ (if st.cached_bucket.isSome then 1 else 0)
  ∧ createCount st.events = 0

theorem gab_inv {cfg : Config} {st : S3St} (f k b : String)
    (h : Inv cfg st) : Inv cfg (getAfterBucket cfg f k b st).1 := by
  obtain ⟨hns, hbp, hc, hg, hcr⟩ := h
  unfold getAfterBucket
  dsimp only
  split
  · exact ⟨hns, hbp,
      by simpa [connectCount_append, cc_getKey] using hc,
      by simpa [getBucketCount_append, gc_getKey] using hg,
      by simpa [createCount_append, crc_getKey] using hcr⟩
  · split
    · exact ⟨hns, hbp,
        by simpa [connectCount_append, cc_getKey] using hc,
        by simpa [getBucketCount_append, gc_getKey] using hg,
        by simpa [createCount_append, crc_getKey] using hcr⟩
    · try dsimp only
      split
      · exact ⟨hns, hbp,
          by simpa [connectCount_append, cc_getKey, cc_download] using hc,
          by simpa [getBucketCount_append, gc_getKey, gc_download] using hg,
          by simp [createCount_append, crc_pair_kd, hcr]⟩
      · exact ⟨hns, hbp,
          by simpa [connectCount_append, cc_getKey, cc_download] using hc,
          by simpa [getBucketCount_append, gc_getKey, gc_download] using hg,
          by simp [createCount_append, crc_pair_kd, hcr]⟩

theorem pab_inv {cfg : Config} {st : S3St} (k b : String) (c : List Nat)
    (h : Inv cfg st) : Inv cfg (putAfterBucket k b c st).1 := by
  obtain ⟨⟨h1, h2, h3⟩, hbp, hc, hg, hcr⟩ := h
  unfold putAfterBucket
  try dsimp only
  split
  · exact ⟨⟨h1, h2, h3⟩, hbp,
      by simpa [connectCount_append, cc_upload] using hc,
      by simpa [getBucketCount_append, gc_upload] using hg,
      by simpa [createCount_append, crc_upload] using hcr⟩
  · split
    · exact ⟨⟨h1, h2, h3⟩, hbp,
        by simpa [connectCount_append, cc_upload] using hc,
        by simpa [getBucketCount_append, gc_upload] using hg,
        by simpa [createCount_append, crc_upload] using hcr⟩
    · rename_i objs hlk
      refine ⟨⟨h1, h2, h3⟩, ?_, ?_, ?_, ?_⟩
      · exact alistLookup_insert_isSome _ _ hbp
      · simpa [connectCount_append, cc_upload] using hc
      · simpa [getBucketCount_append, gc_upload] using hg
      · simpa [createCount_append, crc_upload] using hcr

theorem sb_inv (cfg : Config) (st : S3St) (h : Inv cfg st) :
    Inv cfg (s3_bucket cfg st).1 := by
  obtain ⟨⟨hcf, hgf, hcrf⟩, hbp, hc, hg, hcr⟩ := h
  cases hcb : st.cached_bucket with
  | some b =>
    rw [sb_cached hcb]
    exact ⟨⟨hcf, hgf, hcrf⟩, hbp, hc, hg, hcr⟩
  | none =>
    obtain ⟨objs, hobjs⟩ := Option.isSome_iff_exists.mp hbp
    cases hcc : st.cached_connection with
    | some ch =>
      rw [sb_resolved hcb (conn_cached hcc) hgf hobjs]
      have hg0 : getBucketCount st.events = 0 := by
        simpa [hcb] using hg
      refine ⟨⟨hcf, hgf, hcrf⟩, hbp, ?_, ?_, ?_⟩
      · simpa [connectCount_append, cc_getBucket] using hc
      · simp [getBucketCount_append, gc_getBucket, hg0]
      · simpa [createCount_append, crc_getBucket] using hcr
    | none =>
      cases hp : parseEndpoint cfg.s3_cache_url with
      | none =>
        rw [sb_conn_err hcb (conn_parse_fail hcc hp)]
        exact ⟨⟨hcf, hgf, hcrf⟩, hbp, hc, hg, hcr⟩
      | some ch =>
        rw [sb_resolved hcb (conn_ok hcc hp hcf) hgf hobjs]
        have hc0 : connectCount st.events = 0 := by
          simpa [hcc] using hc
        have hg0 : getBucketCount st.events = 0 := by
          simpa [hcb] using hg
        refine ⟨⟨hcf, hgf, hcrf⟩, hbp, ?_, ?_, ?_⟩
        · simp [connectCount_append, cc_connect, cc_getBucket, cc_pair, hc0]
        · simp [getBucketCount_append, gc_connect, gc_getBucket, gc_pair, hg0]
        · simp [createCount_append, crc_connect, crc_getBucket, crc_pair, hcr]

theorem inv_step (cfg : Config) (st : S3St) (op : Op) (h : Inv cfg st) :
    Inv cfg (runOp cfg st op) := by
  cases op with
  | get f =>
    show Inv cfg (get cfg f st).1
    cases hcp : check_prerequisites cfg st.world with
    | error e => rw [get_cp_err hcp]; exact h
    | ok u =>
      cases u
      rcases hsb : s3_bucket cfg st with ⟨st1, r⟩
      have h1 : Inv cfg st1 := by
        have h2 := sb_inv cfg st h
        rwa [hsb] at h2
      cases r with
      | error e => rw [get_sb_err hcp hsb]; exact h1
      | ok b => rw [get_sb_ok hcp hsb]; exact gab_inv _ _ _ h1
  | put f c =>
    show Inv cfg (put cfg f c st).1
    cases hro : cfg.s3_cache_readonly with
    | true => rw [put_readonly hro]; exact h
    | false =>
      cases hcp : check_prerequisites cfg st.world with
      | error e => rw [put_cp_err hro hcp]; exact h
      | ok u =>
        cases u
        rcases hsb : s3_bucket cfg st with ⟨st1, r⟩
        have h1 : Inv cfg st1 := by
          have h2 := sb_inv cfg st h
          rwa [hsb] at h2
        cases r with
        | error e => rw [put_sb_err hro hcp hsb]; exact h1
        | ok b => rw [put_sb_ok hro hcp hsb]; exact pab_inv _ _ _ h1

theorem inv_runOps (cfg : Config) (ops : List Op) (st : S3St) (h : Inv cfg st) :
    Inv cfg (runOps cfg ops st) := by
  induction ops generalizing st with
  | nil => exact h
  | cons op rest ih => exact ih _ (inv_step cfg st op h)

/-- C4: (a) across any sequence of get/put operations on one fresh backend
instance, with no setup faults and the configured bucket existing, the
transport sees at most one `connect` call, at most one `get_bucket` call
and no `create_bucket` call — the handles are created at most once and
then memoized; (b) a failed connection attempt is not memoized: the
`connect` call happens, both memoization slots stay empty, so the next
operation retries; (c) a failed bucket-resolution attempt (a non-404 boto
error) is likewise not memoized: the `get_bucket` call happens and the
bucket slot stays empty, so the next operation retries. -/
theorem claim4_memoized_handles :
    (∀ cfg ops st,
      noSetupFaults st.world → bucketPresent st.world cfg →
      st.cached_connection = none → st.cached_bucket = none → st.events = [] →
      connectCount (runOps cfg ops st).events ≤ 1
      ∧ getBucketCount (runOps cfg ops st).events ≤ 1
      ∧ createCount (runOps cfg ops st).events = 0)
    ∧ (∀ cfg f st h e,
      cfg.s3_cache_bucket ≠ "" → st.world.botoAvailable = true →
      parseEndpoint cfg.s3_cache_url = some h →
      st.cached_connection = none → st.cached_bucket = none →
      st.world.connectFault = some e →
      (runOp cfg st (Op.get f)).cached_connection = none
      ∧ (runOp cfg st (Op.get f)).cached_bucket = none
      ∧ (runOp cfg st (Op.get f)).events = st.events ++ [NetEvent.connect])
    ∧ (∀ cfg f st c e,
      cfg.s3_cache_bucket ≠ "" → st.world.botoAvailable = true →
      st.cached_connection = some c → st.cached_bucket = none →
      st.world.getBucketFault = some e → is404 e = false →
      (runOp cfg st (Op.get f)).cached_bucket = none
      ∧ (runOp cfg st (Op.get f)).events
          = st.events ++ [NetEvent.getBucket cfg.s3_cache_bucket]) := by
  refine ⟨?_, ?_, ?_⟩
  · intro cfg ops st hns hbp hc0 hb0 he
    have hInv : Inv cfg st := ⟨hns, hbp,
      by simp [he, cc_nil], by simp [he, gc_nil], by simp [he, crc_nil]⟩
    obtain ⟨-, -, h1, h2, h3⟩ := inv_runOps cfg ops st hInv
    refine ⟨le_trans h1 ?_, le_trans h2 ?_, h3⟩ <;> split <;> simp
  · intro cfg f st h e hb hav hp hc0 hb0 hcf
    have hsb := sb_conn_err hb0 (conn_fault hc0 hp hcf)
    simp [runOp, get_sb_err (cp_ok hb hav) hsb, hc0, hb0]
  · intro cfg f st c e hb hav hcc hb0 hgf h404
    have hsb := sb_fault hb0 (@conn_cached cfg st c hcc) hgf h404
    simp [runOp, get_sb_err (cp_ok hb hav) hsb, hb0]

/-- A state whose world injects a connection fault. -/
def stConnFault : S3St :=
  { st0 with world := { w0 with connectFault := some BotoExc.serverError } }

/-- A state with a memoized connection whose world injects a bucket
resolution fault. -/
def stBucketFault : S3St :=
  { st0 with cached_connection := some ⟨"s3.amazonaws.com", 80, false, true⟩, world := { w0 with getBucketFault := some BotoExc.serverError } }

/-- Witness for C4: all three parts at concrete inputs. -/
theorem claim4_witness :
    (connectCount (runOps cfg0 [Op.get "a.tar.gz", Op.put "b.tar.gz" [1],
        Op.get "pkg-1.0.tar.gz"] st0).events ≤ 1
      ∧ getBucketCount (runOps cfg0 [Op.get "a.tar.gz", Op.put "b.tar.gz" [1],
        Op.get "pkg-1.0.tar.gz"] st0).events ≤ 1
      ∧ createCount (runOps cfg0 [Op.get "a.tar.gz", Op.put "b.tar.gz" [1],
        Op.get "pkg-1.0.tar.gz"] st0).events = 0)
    ∧ ((runOp cfg0 stConnFault (Op.get "a.tar.gz")).cached_connection = none
      ∧ (runOp cfg0 stConnFault (Op.get "a.tar.gz")).cached_bucket = none
      ∧ (runOp cfg0 stConnFault (Op.get "a.tar.gz")).events
          = stConnFault.events ++ [NetEvent.connect])
    ∧ ((runOp cfg0 stBucketFault (Op.get "a.tar.gz")).cached_bucket = none
      ∧ (runOp cfg0 stBucketFault (Op.get "a.tar.gz")).events
          = stBucketFault.events ++ [NetEvent.getBucket "mybucket"]) := by
  refine ⟨?_, ?_, ?_⟩
  · exact claim4_memoized_handles.1 cfg0
      [Op.get "a.tar.gz", Op.put "b.tar.gz" [1], Op.get "pkg-1.0.tar.gz"] st0
      ⟨rfl, rfl, rfl⟩ rfl rfl rfl rfl
  · exact claim4_memoized_handles.2.1 cfg0 "a.tar.gz" stConnFault
      ⟨"s3.amazonaws.com", 80, false, true⟩ BotoExc.serverError
      (by decide) rfl (by decide) rfl rfl rfl
  · exact claim4_memoized_handles.2.2 cfg0 "a.tar.gz" stBucketFault
      ⟨"s3.amazonaws.com", 80, false, true⟩ BotoExc.serverError
      (by decide) rfl rfl rfl rfl rfl

end S3Cache
